import Mathlib

/-!
# ssh-shell: the command execution engine (`se_pnt_entry.c`)

A shallow embedding of `shell_main`, `handle_builtin`, `check_command` and
`create_process`, together with the properties of the execution engine that
the specification states about them.

The four functions are translated statement by statement.  Everything they
call that lives in another translation unit (the builtin operations, the line
source, the path resolver, the string helpers) and the operating system
(`fork`, `execve`, `wait`) is a field of the record `Env`: the theorems hold
for every such collaborator.  What the functions do to the outside (output,
process creation, calls between them) is logged in a trace of `Event`s that
no collaborator can rewrite.
-/

namespace SshShell

/-! ## Data model (`shell.h`) -/

/-- One node of `list_s`: the number field and the string. -/
abbrev list_s := List (Int × String)

/-- The width of `size_t`, the type of the field `lines`. -/
def SIZE_WIDTH : Nat := 2 ^ 64

/-- The record `pnt_s` of `shell.h`.  Pointers to strings are strings, the
nullable `path` is an `Option`, `argv` is the list of its words (the empty
list stands for an `argv` without a first word); the field `alias` is
spelled `alias_`, the plain word being reserved. -/
structure pnt_s where
  arg : String
  argv : List String
  path : Option String
  argc : Int
  lines : Nat
  error_code : Int
  lc_flag : Int
  prog_name : String
  env : list_s
  history : list_s
  alias_ : list_s
  environ : List String
  env_changed : Int
  status : Int
  sep_buff : Option String
  sep_buff_kind : Int
  fd_read : Int
  hist_lines : Int
  deriving DecidableEq, Repr

/-- What the engine does to the outside, in program order. -/
inductive Event where
  | puts (s : String)
  | putchar (c : Char)
  | flush_err
  | get_input (r : Int)
  | builtin (name : String)
  | check_command
  | check_file_in_path (cmd : String)
  | print_error (msg : String)
  | fork (cpid : Int)
  | perror (msg : String)
  | execve (path : Option String) (argv : List String) (envp : List String)
  | wait (w : Option Int)
  | create_history
  deriving DecidableEq, Repr

/-- The state of the interpreter process: the execution context, the rest of
the world (`ω`: input still to be read, file system, kernel) and the trace. -/
structure Sh (ω : Type) where
  pnt : pnt_s
  world : ω
  trace : List Event

/-- How a call ends: it returns to its caller, the process ends through
`exit(code)`, the process image is replaced by a successful `execve`, or a
null pointer is dereferenced (the first word of an `argv` that has none). -/
inductive Outcome (σ α : Type) where
  | ret (a : α)
  | exited (code : Int) (s : σ)
  | replaced (s : σ)
  | fault

/-- Sequencing of calls: only a call that returns is followed by the next
statement. -/
def Outcome.bind {σ α β : Type} (o : Outcome σ α) (f : α → Outcome σ β) : Outcome σ β :=
  match o with
  | .ret a => f a
  | .exited c s => .exited c s
  | .replaced s => .replaced s
  | .fault => .fault

/-- The value of `errno` for a permission failure (`EACCES` of `errno.h`). -/
def EACCES : Int := 13

/-- The collaborators of the engine: the functions declared in `shell.h`
whose bodies are in other files, and the system calls.  The ones that take
`pnt_s *` and may write through it return the new context and world; the
tests (`from_terminal`, `is_executable`, `_getenv`, `check_file_in_path`)
only read.  `execve` answers `none` when the image is replaced and
`some errno` when it returns -1; `wait` answers the status it stores, or
`none` when it stores nothing. -/
structure Env (ω : Type) where
  handle_cd : pnt_s → ω → Int × pnt_s × ω
  _printenv : pnt_s → ω → Int × pnt_s × ω
  handle_exit : pnt_s → ω → Int × pnt_s × ω
  handle_help : pnt_s → ω → Int × pnt_s × ω
  handle_alias : pnt_s → ω → Int × pnt_s × ω
  check_setenv : pnt_s → ω → Int × pnt_s × ω
  handle_history : pnt_s → ω → Int × pnt_s × ω
  check_unsetenv : pnt_s → ω → Int × pnt_s × ω
  clear_pnt : pnt_s → ω → pnt_s × ω
  set_pnt : pnt_s → List String → ω → pnt_s × ω
  free_pnt : pnt_s → Int → ω → pnt_s × ω
  get_input : pnt_s → ω → Int × pnt_s × ω
  create_history : pnt_s → ω → pnt_s × ω
  get_environ : pnt_s → ω → List String × pnt_s × ω
  from_terminal : pnt_s → ω → Int
  is_delimiter : Char → String → Bool
  _getenv : pnt_s → ω → String → Option String
  check_file_in_path : pnt_s → ω → Option String → String → Option String
  is_executable : pnt_s → ω → String → Bool
  fork : ω → Int × ω
  execve : Option String → List String → List String → ω → Option Int
  wait : ω → Option Int × ω

/-! ## Wait-status macros (`sys/wait.h`)

On a two's-complement `int`, `w & 0x7f` is `w % 128` and `(w & 0xff00) >> 8`
is `w / 256 % 256` (`%` and `/` of `Int` round towards minus infinity for a
positive divisor). -/

/-- The macro `WTERMSIG(w)`: `w & 0x7f`. -/
def WTERMSIG (w : Int) : Int := w % 128

/-- The macro `WIFEXITED(w)`: `WTERMSIG(w) == 0`. -/
def WIFEXITED (w : Int) : Bool := WTERMSIG w == 0

/-- The macro `WEXITSTATUS(w)`: `(w & 0xff00) >> 8`. -/
def WEXITSTATUS (w : Int) : Int := w / 256 % 256

/-- The macro `WIFSIGNALED(w)`: `((signed char) ((w & 0x7f) + 1) >> 1) > 0`,
that is, the low seven bits are neither 0 nor 0x7f. -/
def WIFSIGNALED (w : Int) : Bool := decide (0 < WTERMSIG w) && decide (WTERMSIG w < 127)

/-! ## `create_process` -/

/-- The events of looking up and running an external program. -/
def Event.external : Event → Bool
  | .check_command => true
  | .check_file_in_path _ => true
  | .fork _ => true
  | .execve _ _ _ => true
  | .wait _ => true
  | _ => false

/-- Appends one event to the trace. -/
def Sh.log {ω : Type} (s : Sh ω) (e : Event) : Sh ω :=
  { s with trace := s.trace ++ [e] }

/-- The parent's branch of `create_process` (lines 186-195) once `wait` has
answered `w`: the status stored by `wait` is decoded. -/
def decode_wait {ω : Type} (s : Sh ω) (w : Option Int) : Sh ω :=
  let v := match w with
    | some v => v
    | none => s.pnt.status
  let s2 : Sh ω := { s with pnt := { s.pnt with status := v } }
  if WIFEXITED s2.pnt.status then
    let s3 : Sh ω := { s2 with pnt := { s2.pnt with status := WEXITSTATUS s2.pnt.status } }
    if s3.pnt.status = 126 then
      s3.log (Event.print_error "Permission denied\n")
    else s3
  else s2

/-- The child's branch of `create_process` (lines 173-180).  The `errno`
tested is the one `execve` has set: `free_pnt` is taken to leave it alone. -/
def exec_child {ω : Type} (E : Env ω) (s : Sh ω) : Outcome (Sh ω) (Sh ω) :=
  let r := E.get_environ s.pnt s.world
  let s2 : Sh ω :=
    { pnt := r.2.1, world := r.2.2,
      trace := s.trace ++ [Event.execve r.2.1.path r.2.1.argv r.1] }
  match E.execve s2.pnt.path s2.pnt.argv r.1 s2.world with
  | none => .replaced s2
  | some errno =>
    let f := E.free_pnt s2.pnt 1 s2.world
    let s3 : Sh ω := { s2 with pnt := f.1, world := f.2 }
    if errno = EACCES then .exited 126 s3 else .exited 1 s3

/-- The function `create_process` (lines 156-197). -/
def create_process {ω : Type} (E : Env ω) (s : Sh ω) : Outcome (Sh ω) (Sh ω) :=
  let cpid := (E.fork s.world).1
  let s1 : Sh ω :=
    { pnt := s.pnt, world := (E.fork s.world).2, trace := s.trace ++ [Event.fork cpid] }
  if cpid = -1 then
    .ret (s1.log (Event.perror "Error:"))
  else if cpid = 0 then
    exec_child E s1
  else
    let w := E.wait s1.world
    .ret (decode_wait { s1 with world := w.2, trace := s1.trace ++ [Event.wait w.1] } w.1)

/-! ## `handle_builtin` -/

/-- Modelled from the spec: the body of `_strcmp` is in another file.  The
registry lookup is an exact, case-sensitive string match (section 4.2), so
the comparison is 0 for equal strings and nonzero otherwise. -/
def _strcmp (s1 s2 : String) : Int := if s1 = s2 then 0 else 1

/-- The increment `pnt->lines++` on a `size_t`. -/
def incr_lines (p : pnt_s) : pnt_s := { p with lines := (p.lines + 1) % SIZE_WIDTH }

/-- The table `builtints` of `handle_builtin` (lines 77-86), in its order. -/
def builtints {ω : Type} (E : Env ω) : List (String × (pnt_s → ω → Int × pnt_s × ω)) :=
  [("cd", E.handle_cd),
   ("env", E._printenv),
   ("exit", E.handle_exit),
   ("help", E.handle_help),
   ("alias", E.handle_alias),
   ("setenv", E.check_setenv),
   ("history", E.handle_history),
   ("unsetenv", E.check_unsetenv)]

/-- The names of the table, in its order. -/
def builtin_names : List String :=
  ["cd", "env", "exit", "help", "alias", "setenv", "history", "unsetenv"]

/-- The loop of `handle_builtin` (lines 88-94) over the rest of the table,
`a` being `pnt->argv[0]`: at the first entry that compares equal the counter
is incremented, the operation runs on the incremented context and the loop
stops; without a match the value stays -1. -/
def builtin_loop {ω : Type} (a : String) (s : Sh ω) :
    List (String × (pnt_s → ω → Int × pnt_s × ω)) → Int × Sh ω
  | [] => (-1, s)
  | (type, func) :: rest =>
    if _strcmp a type = 0 then
      let p1 := incr_lines s.pnt
      let r := func p1 s.world
      (r.1, { pnt := r.2.1, world := r.2.2, trace := s.trace ++ [Event.builtin type] })
    else builtin_loop a s rest

/-- The function `handle_builtin` (lines 73-96). -/
def handle_builtin {ω : Type} (E : Env ω) (s : Sh ω) : Outcome (Sh ω) (Int × Sh ω) :=
  match s.pnt.argv with
  | [] => .fault
  | a :: _ => .ret (builtin_loop a s (builtints E))

/-- The state in which `handle_builtin` leaves the interpreter when the
operation `func` of the entry `type` has run: the operation was started on
the context with the counter already incremented. -/
def after_builtin {ω : Type} (type : String) (func : pnt_s → ω → Int × pnt_s × ω)
    (s : Sh ω) : Sh ω :=
  { pnt := (func (incr_lines s.pnt) s.world).2.1,
    world := (func (incr_lines s.pnt) s.world).2.2,
    trace := s.trace ++ [Event.builtin type] }

/-! ## `check_command` -/

/-- The counting loop of `check_command` (lines 117-119): the number of
characters of `arg` that are not delimiters.  (`arg` is indexed by an `int`,
so its length is below `2 ^ 31` and the count does not overflow.) -/
def count_str {ω : Type} (E : Env ω) (arg : String) : Nat :=
  (arg.toList.filter (fun c => !E.is_delimiter c " \t\n")).length

/-- The test `pnt->argv[0][0] == '/'`. -/
def starts_with_slash (a : String) : Bool := a.toList.head? == some '/'

/-- The test `*(pnt->arg) != '\n'`. -/
def not_newline_first (arg : String) : Bool := arg.toList.head? != some '\n'

/-- The first statements of `check_command` (lines 109-114): `path` takes
`argv[0]`, and a line flagged by `lc_flag` is counted and the flag reset. -/
def count_line (p : pnt_s) : pnt_s :=
  let p1 : pnt_s := { p with path := p.argv.head? }
  if p1.lc_flag = 1 then { incr_lines p1 with lc_flag := 0 } else p1

/-- The condition of line 135 that guards the direct test of `argv[0]`. -/
def direct_test {ω : Type} (E : Env ω) (p : pnt_s) (w : ω) (a : String) : Prop :=
  (E.from_terminal p w ≠ 0 ∨ (E._getenv p w "PATH=").isSome ∨ starts_with_slash a = true)
    ∧ E.is_executable p w a = true

instance {ω : Type} (E : Env ω) (p : pnt_s) (w : ω) (a : String) :
    Decidable (direct_test E p w a) := by
  unfold direct_test; infer_instance

/-- The function `check_command` (lines 104-144). -/
def check_command {ω : Type} (E : Env ω) (s : Sh ω) : Outcome (Sh ω) (Sh ω) :=
  let p2 := count_line s.pnt
  let s2 : Sh ω := { pnt := p2, world := s.world, trace := s.trace ++ [Event.check_command] }
  if count_str E p2.arg = 0 then
    .ret s2
  else
    match p2.argv with
    | [] => .fault
    | a :: _ =>
      let s3 := s2.log (Event.check_file_in_path a)
      match E.check_file_in_path p2 s.world (E._getenv p2 s.world "PATH=") a with
      | some path => create_process E { s3 with pnt := { p2 with path := some path } }
      | none =>
        if direct_test E p2 s.world a then
          create_process E s3
        else if not_newline_first p2.arg then
          .ret ({ s3 with pnt := { p2 with status := 127 } }.log
                  (Event.print_error "not found\n"))
        else .ret s3

/-- What `check_command` has logged when it reports or gives up: its own
entry and the path lookup. -/
def lookup_trace {ω : Type} (s : Sh ω) (a : String) : List Event :=
  s.trace ++ [Event.check_command, Event.check_file_in_path a]

/-- The context with which `check_command` calls `create_process` for the
command `a`, if it does: with the path found by `check_file_in_path`, or as
it is when the direct test of line 135 holds. -/
def launch_pnt {ω : Type} (E : Env ω) (s : Sh ω) (a : String) : Option pnt_s :=
  match E.check_file_in_path (count_line s.pnt) s.world
      (E._getenv (count_line s.pnt) s.world "PATH=") a with
  | some path => some { count_line s.pnt with path := some path }
  | none => if direct_test E (count_line s.pnt) s.world a then some (count_line s.pnt) else none

/-! ## `shell_main` -/

/-- The head of one pass of the loop (lines 17-24): the context is cleared,
the prompt is printed on a terminal, the error buffer is flushed and a line
is asked of the line source.  The answer is `read_result`. -/
def read_line {ω : Type} (E : Env ω) (s : Sh ω) : Int × Sh ω :=
  let c := E.clear_pnt s.pnt s.world
  let t1 := if E.from_terminal c.1 c.2 ≠ 0 then s.trace ++ [Event.puts "$ "] else s.trace
  let r := E.get_input c.1 c.2
  (r.1, { pnt := r.2.1, world := r.2.2,
          trace := t1 ++ [Event.flush_err, Event.get_input r.1] })

/-- The dispatch of one line (lines 30-34): `handle_builtin`, and
`check_command` when it answers -1.  The value is `builtin_return_value`. -/
def dispatch {ω : Type} (E : Env ω) (s : Sh ω) : Outcome (Sh ω) (Int × Sh ω) :=
  (handle_builtin E s).bind fun r =>
    if r.1 = -1 then (check_command E r.2).bind fun s2 => .ret (r.1, s2)
    else .ret r

/-- The call `free_pnt(pnt, all)`. -/
def do_free {ω : Type} (E : Env ω) (all : Int) (s : Sh ω) : Sh ω :=
  { s with pnt := (E.free_pnt s.pnt all s.world).1, world := (E.free_pnt s.pnt all s.world).2 }

/-- The call `set_pnt(pnt, sv)` (line 29). -/
def set_line {ω : Type} (E : Env ω) (sv : List String) (s : Sh ω) : Sh ω :=
  { s with pnt := (E.set_pnt s.pnt sv s.world).1, world := (E.set_pnt s.pnt sv s.world).2 }

/-- The state in which a line that was read is dispatched: after
`get_input` and `set_pnt`. -/
def line_state {ω : Type} (E : Env ω) (sv : List String) (s : Sh ω) : Sh ω :=
  set_line E sv (read_line E s).2

/-- One pass of the loop of `shell_main` (lines 17-41), entered with the
current `builtin_return_value`; the value is the pair of `read_result` and
`builtin_return_value` with which the loop condition is tested next. -/
def loop_body {ω : Type} (E : Env ω) (sv : List String) (brv : Int) (s : Sh ω) :
    Outcome (Sh ω) (Int × Int × Sh ω) :=
  let r := read_line E s
  if r.1 ≠ -1 then
    (dispatch E (set_line E sv r.2)).bind fun d =>
      .ret (r.1, d.1, do_free E 0 d.2)
  else if E.from_terminal r.2.pnt r.2.world ≠ 0 then
    .ret (r.1, brv, do_free E 0 (r.2.log (Event.putchar '\n')))
  else
    .ret (r.1, brv, do_free E 0 r.2)

/-- The loop condition of `shell_main` (line 15). -/
def loop_cond (read_result builtin_return_value : Int) : Bool :=
  read_result != -1 && builtin_return_value != -2

/-- The loop of `shell_main` (lines 15-42), from the values the two locals
have when the condition is tested; `fuel` bounds the number of passes and
`none` means that it was used up. -/
def shell_loop {ω : Type} (E : Env ω) (sv : List String) :
    Nat → Int → Int → Sh ω → Option (Outcome (Sh ω) (Int × Int × Sh ω))
  | fuel, rr, brv, s =>
    if loop_cond rr brv then
      match fuel with
      | 0 => none
      | fuel + 1 =>
        match loop_body E sv brv s with
        | .ret r => shell_loop E sv fuel r.1 r.2.1 r.2.2
        | .exited c s2 => some (.exited c s2)
        | .replaced s2 => some (.replaced s2)
        | .fault => some .fault
    else some (.ret (rr, brv, s))

/-- The state in which the exit tests of `shell_main` are made: after
`create_history(pnt)` and `free_pnt(pnt, 1)` (lines 45-48). -/
def final_state {ω : Type} (E : Env ω) (s : Sh ω) : Sh ω :=
  do_free E 1
    { pnt := (E.create_history s.pnt s.world).1, world := (E.create_history s.pnt s.world).2,
      trace := s.trace ++ [Event.create_history] }

/-- The end of `shell_main` (lines 44-61), entered with the final
`builtin_return_value`. -/
def shell_finish {ω : Type} (E : Env ω) (brv : Int) (s : Sh ω) : Outcome (Sh ω) (Int × Sh ω) :=
  let s2 := final_state E s
  if E.from_terminal s2.pnt s2.world = 0 ∧ s2.pnt.status ≠ 0 then
    .exited s2.pnt.status s2
  else if brv = -2 then
    if s2.pnt.error_code = -1 then .exited s2.pnt.status s2
    else .exited s2.pnt.error_code s2
  else .ret (brv, s2)

/-- The function `shell_main` (lines 10-62), from the point where the locals
have the values `read_result` and `builtin_return_value`. -/
def shell_main_from {ω : Type} (E : Env ω) (sv : List String) (fuel : Nat)
    (read_result builtin_return_value : Int) (s : Sh ω) :
    Option (Outcome (Sh ω) (Int × Sh ω)) :=
  (shell_loop E sv fuel read_result builtin_return_value s).map fun o =>
    o.bind fun r => shell_finish E r.2.1 r.2.2

/-- The function `shell_main` (lines 10-62): both locals start at 0. -/
def shell_main {ω : Type} (E : Env ω) (sv : List String) (fuel : Nat) (s : Sh ω) :
    Option (Outcome (Sh ω) (Int × Sh ω)) :=
  shell_main_from E sv fuel 0 0 s

/-! ## A scripted environment

A small concrete world on which the engine can be run: the lines still to be
read, whether standard input is a terminal, the executables that exist, and
what `fork`, `execve` and `wait` answer. -/

/-- The world of the scripted environment. -/
structure Script where
  input : List String
  tty : Bool
  files : List String
  fork_result : Int
  exec_errno : Option Int
  wait_status : Int

/-- The words of a line, split at spaces, tabs and newlines. -/
def words_of : List Char → List Char → List String
  | [], [] => []
  | [], w => [String.mk w.reverse]
  | c :: cs, w =>
    if c = ' ' ∨ c = '\t' ∨ c = '\n' then
      if w = [] then words_of cs [] else String.mk w.reverse :: words_of cs []
    else words_of cs (c :: w)

/-- The value of a string of decimal digits, `none` for anything else. -/
def digits_value : List Char → Option Nat
  | [] => none
  | cs => cs.foldl (fun acc c =>
      match acc with
      | some n => if c.isDigit then some (10 * n + (c.toNat - 48)) else none
      | none => none) (some 0)

/-- The builtin `exit` of the scripted environment: with a numeric argument
the error code is that number, without an argument it is unset, and both
ask for termination; any other argument is an error. -/
def script_exit (p : pnt_s) (w : Script) : Int × pnt_s × Script :=
  match p.argv with
  | [_, n] =>
    match digits_value n.toList with
    | some v => (-2, { p with error_code := v }, w)
    | none => (1, { p with status := 2 }, w)
  | _ => (-2, { p with error_code := -1 }, w)

/-- The line source of the scripted environment: the next line of the
script, flagged to be counted, or -1 at its end. -/
def script_input (p : pnt_s) (w : Script) : Int × pnt_s × Script :=
  match w.input with
  | [] => (-1, p, w)
  | l :: rest => (l.length, { p with arg := l, lc_flag := 1 }, { w with input := rest })

/-- The tokenizer of the scripted environment: the words of the line, or
the line itself when it has none. -/
def script_set (p : pnt_s) (_sv : List String) (w : Script) : pnt_s × Script :=
  match words_of p.arg.toList [] with
  | [] => ({ p with argv := [p.arg], argc := 1 }, w)
  | ws => ({ p with argv := ws, argc := ws.length }, w)

/-- The scripted environment: no environment variable is set (so no `PATH`),
a name is executable when it is one of the files of the world, and the
builtins other than `exit` succeed without effect. -/
def script_env : Env Script where
  handle_cd := fun p w => (0, p, w)
  _printenv := fun p w => (0, p, w)
  handle_exit := script_exit
  handle_help := fun p w => (0, p, w)
  handle_alias := fun p w => (0, p, w)
  check_setenv := fun p w => (0, p, w)
  handle_history := fun p w => (0, p, w)
  check_unsetenv := fun p w => (0, p, w)
  clear_pnt := fun p w => ({ p with arg := "", argv := [], path := none, argc := 0 }, w)
  set_pnt := script_set
  free_pnt := fun p _ w => ({ p with argv := [], path := none }, w)
  get_input := script_input
  create_history := fun p w => (p, w)
  get_environ := fun p w => (p.environ, p, w)
  from_terminal := fun _ w => if w.tty then 1 else 0
  is_delimiter := fun c d => decide (c ∈ d.toList)
  _getenv := fun _ _ _ => none
  check_file_in_path := fun _ _ _ _ => none
  is_executable := fun _ w a => decide (a ∈ w.files)
  fork := fun w => (w.fork_result, w)
  execve := fun _ _ _ w => w.exec_errno
  wait := fun w => (some w.wait_status, w)

/-- The initial context, every field as the initialiser `SET_pnt` gives it. -/
def start_pnt : pnt_s where
  arg := ""
  argv := []
  path := none
  argc := 0
  lines := 0
  error_code := 0
  lc_flag := 0
  prog_name := ""
  env := []
  history := []
  alias_ := []
  environ := []
  env_changed := 0
  status := 0
  sep_buff := none
  sep_buff_kind := 0
  fd_read := 0
  hist_lines := 0

/-- The scripted interpreter at its start in the world `w`. -/
def script_start_in (w : Script) : Sh Script where
  pnt := start_pnt
  world := w
  trace := []

/-- The scripted interpreter about to read the lines `input`; no file is
executable. -/
def script_start (tty : Bool) (input : List String) : Sh Script :=
  script_start_in
    { input := input, tty := tty, files := [], fork_result := 4242, exec_errno := some 2,
      wait_status := 0 }

/-- A world in which `prog` is typed at a terminal and passes the test
`is_executable`, `execve` is refused for lack of permission, and `fork` and
`wait` answer as given. -/
def prog_world (fork_result wait_status : Int) : Script :=
  { input := ["prog"], tty := true, files := ["prog"], fork_result := fork_result,
    exec_errno := some EACCES, wait_status := wait_status }

/-- The scripted interpreter about to dispatch the line `line`, which it
has just read and split into words. -/
def script_line (tty : Bool) (line : String) : Sh Script :=
  line_state script_env [] (script_start tty [line])

/-- What a call that returns a value leaves behind: the value, the context
and the trace. -/
def observe {ω : Type} : Outcome (Sh ω) (Int × Sh ω) → Option (Int × pnt_s × List Event)
  | .ret r => some (r.1, r.2.pnt, r.2.trace)
  | _ => none

/-- The code with which `shell_main` ends the process, together with
`pnt->error_code` and `pnt->status` at that moment. -/
def exit_view {ω : Type} : Option (Outcome (Sh ω) (Int × Sh ω)) → Option (Int × Int × Int)
  | some (.exited c s) => some (c, s.pnt.error_code, s.pnt.status)
  | _ => none

/-- The value with which `shell_main` finishes (the code it exits with or the
value it returns) together with `pnt->status` at that moment. -/
def finish_value {ω : Type} : Option (Outcome (Sh ω) (Int × Sh ω)) → Option (Int × Int)
  | some (.ret r) => some (r.1, r.2.pnt.status)
  | some (.exited c s) => some (c, s.pnt.status)
  | _ => none

/-! ## Lemmas on the registry lookup -/

theorem builtin_loop_hit {ω : Type} (E : Env ω) (s : Sh ω) (a : String)
    (func : pnt_s → ω → Int × pnt_s × ω) (h : (a, func) ∈ builtints E) :
    builtin_loop a s (builtints E)
      = ((func (incr_lines s.pnt) s.world).1, after_builtin a func s) := by
  simp only [builtints, List.mem_cons, Prod.mk.injEq, List.mem_singleton, List.not_mem_nil,
    or_false] at h
  rcases h with h | h | h | h | h | h | h | h <;> obtain ⟨rfl, rfl⟩ := h <;>
    simp [builtin_loop, builtints, _strcmp, after_builtin]

theorem builtin_loop_miss {ω : Type} (E : Env ω) (s : Sh ω) (a : String)
    (h : a ∉ builtin_names) : builtin_loop a s (builtints E) = (-1, s) := by
  simp only [builtin_names, List.mem_cons, List.mem_singleton, List.not_mem_nil, or_false,
    not_or] at h
  obtain ⟨h1, h2, h3, h4, h5, h6, h7, h8⟩ := h
  simp [builtin_loop, builtints, _strcmp, h1, h2, h3, h4, h5, h6, h7, h8]

theorem builtin_names_have_entry {ω : Type} (E : Env ω) (a : String)
    (h : a ∈ builtin_names) : ∃ func, (a, func) ∈ builtints E := by
  simp only [builtin_names, List.mem_cons, List.mem_singleton, List.not_mem_nil,
    or_false] at h
  rcases h with h | h | h | h | h | h | h | h <;> subst h
  · exact ⟨E.handle_cd, by simp [builtints]⟩
  · exact ⟨E._printenv, by simp [builtints]⟩
  · exact ⟨E.handle_exit, by simp [builtints]⟩
  · exact ⟨E.handle_help, by simp [builtints]⟩
  · exact ⟨E.handle_alias, by simp [builtints]⟩
  · exact ⟨E.check_setenv, by simp [builtints]⟩
  · exact ⟨E.handle_history, by simp [builtints]⟩
  · exact ⟨E.check_unsetenv, by simp [builtints]⟩

theorem mem_builtints_name {ω : Type} (E : Env ω) (a : String)
    (func : pnt_s → ω → Int × pnt_s × ω) (h : (a, func) ∈ builtints E) :
    a ∈ builtin_names := by
  simp only [builtints, List.mem_cons, Prod.mk.injEq, List.mem_singleton, List.not_mem_nil,
    or_false] at h
  rcases h with h | h | h | h | h | h | h | h <;> obtain ⟨rfl, _⟩ := h <;>
    simp [builtin_names]

/-! ## Lemmas on `check_command` and on one pass of the loop -/

@[simp]
theorem count_line_arg (p : pnt_s) : (count_line p).arg = p.arg := by
  by_cases h : p.lc_flag = 1 <;> simp [count_line, incr_lines, h]

@[simp]
theorem count_line_argv (p : pnt_s) : (count_line p).argv = p.argv := by
  by_cases h : p.lc_flag = 1 <;> simp [count_line, incr_lines, h]

@[simp]
theorem count_line_status (p : pnt_s) : (count_line p).status = p.status := by
  by_cases h : p.lc_flag = 1 <;> simp [count_line, incr_lines, h]

@[simp]
theorem count_line_error_code (p : pnt_s) :
    (count_line p).error_code = p.error_code := by
  by_cases h : p.lc_flag = 1 <;> simp [count_line, incr_lines, h]

theorem count_line_lines (p : pnt_s) :
    (count_line p).lines = if p.lc_flag = 1 then (p.lines + 1) % SIZE_WIDTH else p.lines := by
  by_cases h : p.lc_flag = 1 <;> simp [count_line, incr_lines, h]

theorem count_line_lc_flag (p : pnt_s) :
    (count_line p).lc_flag = if p.lc_flag = 1 then 0 else p.lc_flag := by
  by_cases h : p.lc_flag = 1 <;> simp [count_line, incr_lines, h]

theorem count_str_eq_zero {ω : Type} (E : Env ω) (arg : String)
    (h : ∀ c ∈ arg.toList, E.is_delimiter c " \t\n" = true) : count_str E arg = 0 := by
  unfold count_str
  rw [List.length_eq_zero, List.filter_eq_nil_iff]
  intro c hc
  simp [h c hc]

theorem count_str_ne_zero {ω : Type} (E : Env ω) (arg : String)
    (h : ∃ c ∈ arg.toList, E.is_delimiter c " \t\n" = false) : count_str E arg ≠ 0 := by
  obtain ⟨c, hc, hd⟩ := h
  unfold count_str
  intro h0
  rw [List.length_eq_zero, List.filter_eq_nil_iff] at h0
  have := h0 c hc
  simp [hd] at this

theorem loop_body_read {ω : Type} (E : Env ω) (sv : List String) (brv : Int) (s : Sh ω)
    (h : (read_line E s).1 ≠ -1) :
    loop_body E sv brv s
      = (dispatch E (line_state E sv s)).bind fun d =>
          .ret ((read_line E s).1, d.1, do_free E 0 d.2) := by
  unfold loop_body line_state
  simp [h]

theorem dispatch_miss {ω : Type} (E : Env ω) (s : Sh ω) (a : String) (rest : List String)
    (hargv : s.pnt.argv = a :: rest) (hnb : a ∉ builtin_names) :
    dispatch E s = (check_command E s).bind fun s2 => .ret (-1, s2) := by
  unfold dispatch handle_builtin
  rw [hargv]
  simp [Outcome.bind, builtin_loop_miss E s a hnb]

theorem check_command_unresolved {ω : Type} (E : Env ω) (s : Sh ω) (a : String)
    (rest : List String) (hargv : s.pnt.argv = a :: rest)
    (hcount : count_str E s.pnt.arg ≠ 0)
    (hpath : E.check_file_in_path (count_line s.pnt) s.world
      (E._getenv (count_line s.pnt) s.world "PATH=") a = none)
    (hdirect : ¬ direct_test E (count_line s.pnt) s.world a) :
    check_command E s
      = .ret (if not_newline_first s.pnt.arg = true then
          { pnt := { count_line s.pnt with status := 127 }, world := s.world,
            trace := lookup_trace s a ++ [Event.print_error "not found\n"] }
        else { pnt := count_line s.pnt, world := s.world, trace := lookup_trace s a }) := by
  unfold check_command
  simp only [count_line_arg, count_line_argv, hargv, hcount, if_false, hpath, hdirect]
  split <;> simp [Sh.log, lookup_trace]

/-! ## The builtin registry shadows the search path -/

/-- C1.  Builtin shadowing: when the first word `argv[0]` of the line that
was read is the name of an entry of the builtin table, then for every status
the operation returns (a status is 0, positive or the sentinel -2; -1 is the
value reserved for "no builtin") one pass of `shell_main` runs exactly that
operation and then `free_pnt`: the only event of the pass after the read is
the call of the operation, so `check_command` is not called, no path is
looked up and no process is created. -/
theorem builtin_shadows_external {ω : Type} (E : Env ω) (sv : List String) (brv : Int)
    (s0 : Sh ω) (a : String) (rest : List String) (func : pnt_s → ω → Int × pnt_s × ω)
    (hread : (read_line E s0).1 ≠ -1)
    (hargv : (line_state E sv s0).pnt.argv = a :: rest)
    (hname : (a, func) ∈ builtints E)
    (hstatus : (func (incr_lines (line_state E sv s0).pnt) (line_state E sv s0).world).1 ≠ -1) :
    loop_body E sv brv s0
        = .ret ((read_line E s0).1,
            (func (incr_lines (line_state E sv s0).pnt) (line_state E sv s0).world).1,
            do_free E 0 (after_builtin a func (line_state E sv s0)))
      ∧ ∃ evs, (do_free E 0 (after_builtin a func (line_state E sv s0))).trace
            = (read_line E s0).2.trace ++ evs
          ∧ evs = [Event.builtin a] ∧ ∀ e ∈ evs, e.external = false := by
  refine ⟨?_, [Event.builtin a], ?_, rfl, ?_⟩
  · rw [loop_body_read E sv brv s0 hread]
    unfold dispatch handle_builtin
    rw [hargv]
    simp [Outcome.bind, builtin_loop_hit E _ a func hname, hstatus]
  · simp [do_free, after_builtin, line_state, set_line]
  · simp [Event.external]

theorem builtin_shadows_external_witness :
    loop_body script_env [] 0 (script_start true ["cd"])
        = .ret ((read_line script_env (script_start true ["cd"])).1,
            (script_env.handle_cd (incr_lines (script_line true "cd").pnt)
              (script_line true "cd").world).1,
            do_free script_env 0
              (after_builtin "cd" script_env.handle_cd (script_line true "cd")))
      ∧ ∃ evs, (do_free script_env 0
              (after_builtin "cd" script_env.handle_cd (script_line true "cd"))).trace
            = (read_line script_env (script_start true ["cd"])).2.trace ++ evs
          ∧ evs = [Event.builtin "cd"] ∧ ∀ e ∈ evs, e.external = false :=
  builtin_shadows_external script_env [] 0 (script_start true ["cd"]) "cd" []
    script_env.handle_cd (by decide) (by decide) (List.mem_cons_self _ _) (by decide)

/-! ## Commands that resolve to nothing -/

/-- C4 (as stated, refuted).  The line is a newline followed by `ls`; its
first word `ls` is no builtin, the path lookup finds nothing and `ls` is not
executable.  `check_command` leaves the status at 0 and reports nothing: the
events of the dispatch are its own entry and the path lookup only. -/
theorem unknown_command_after_newline_is_silent :
    (script_line true "\nls").pnt.arg = "\nls"
      ∧ (script_line true "\nls").pnt.argv = ["ls"]
      ∧ "ls" ∉ builtin_names
      ∧ count_str script_env (script_line true "\nls").pnt.arg = 2
      ∧ (observe (dispatch script_env (script_line true "\nls"))).map
            (fun r => (r.1, r.2.1.status, r.2.2))
          = some (-1, 0,
              [Event.puts "$ ", Event.flush_err, Event.get_input 3,
               Event.check_command, Event.check_file_in_path "ls"]) := by
  decide

/-- C4 (amended).  Unknown command: for every line that was read, has at
least one character that is no delimiter and does not begin with a newline,
whose first word matches no builtin, for which `check_file_in_path` finds no
path and `is_executable(argv[0])` is false, the dispatch creates no process
(after the path lookup only the error is logged), sets the status to 127 and
reports "not found"; the pass ends with `read_result` different from -1 and
`builtin_return_value` -1, so the loop condition of `shell_main` holds and
the next line is read. -/
theorem unknown_command_reported {ω : Type} (E : Env ω) (sv : List String) (brv : Int)
    (s0 : Sh ω) (a : String) (rest : List String)
    (hread : (read_line E s0).1 ≠ -1)
    (hargv : (line_state E sv s0).pnt.argv = a :: rest)
    (hnb : a ∉ builtin_names)
    (hcount : ∃ c ∈ (line_state E sv s0).pnt.arg.toList, E.is_delimiter c " \t\n" = false)
    (hnl : (line_state E sv s0).pnt.arg.toList.head? ≠ some '\n')
    (hpath : E.check_file_in_path (count_line (line_state E sv s0).pnt)
      (line_state E sv s0).world
      (E._getenv (count_line (line_state E sv s0).pnt) (line_state E sv s0).world "PATH=") a
        = none)
    (hexe : E.is_executable (count_line (line_state E sv s0).pnt)
      (line_state E sv s0).world a = false) :
    dispatch E (line_state E sv s0)
        = .ret (-1,
            { pnt := { count_line (line_state E sv s0).pnt with status := 127 },
              world := (line_state E sv s0).world,
              trace := (line_state E sv s0).trace
                ++ [Event.check_command, Event.check_file_in_path a,
                    Event.print_error "not found\n"] })
      ∧ loop_body E sv brv s0
        = .ret ((read_line E s0).1, -1, do_free E 0
            { pnt := { count_line (line_state E sv s0).pnt with status := 127 },
              world := (line_state E sv s0).world,
              trace := (line_state E sv s0).trace
                ++ [Event.check_command, Event.check_file_in_path a,
                    Event.print_error "not found\n"] })
      ∧ loop_cond (read_line E s0).1 (-1) = true := by
  have hd : dispatch E (line_state E sv s0)
        = .ret (-1,
            { pnt := { count_line (line_state E sv s0).pnt with status := 127 },
              world := (line_state E sv s0).world,
              trace := (line_state E sv s0).trace
                ++ [Event.check_command, Event.check_file_in_path a,
                    Event.print_error "not found\n"] }) := by
    rw [dispatch_miss E _ a rest hargv hnb,
      check_command_unresolved E _ a rest hargv (count_str_ne_zero E _ hcount) hpath
        (by simp [direct_test, hexe])]
    have h1 : not_newline_first (line_state E sv s0).pnt.arg = true := by
      simpa [not_newline_first] using hnl
    simp [h1, Outcome.bind, lookup_trace]
  refine ⟨hd, ?_, ?_⟩
  · rw [loop_body_read E sv brv s0 hread, hd]
    simp [Outcome.bind]
  · simp [loop_cond, hread]

theorem unknown_command_reported_witness :
    dispatch script_env (line_state script_env [] (script_start true ["nosuch"]))
        = .ret (-1,
            { pnt := { count_line (line_state script_env [] (script_start true ["nosuch"])).pnt
                        with status := 127 },
              world := (line_state script_env [] (script_start true ["nosuch"])).world,
              trace := (line_state script_env [] (script_start true ["nosuch"])).trace
                ++ [Event.check_command, Event.check_file_in_path "nosuch",
                    Event.print_error "not found\n"] })
      ∧ loop_body script_env [] 0 (script_start true ["nosuch"])
        = .ret ((read_line script_env (script_start true ["nosuch"])).1, -1,
            do_free script_env 0
            { pnt := { count_line (line_state script_env [] (script_start true ["nosuch"])).pnt
                        with status := 127 },
              world := (line_state script_env [] (script_start true ["nosuch"])).world,
              trace := (line_state script_env [] (script_start true ["nosuch"])).trace
                ++ [Event.check_command, Event.check_file_in_path "nosuch",
                    Event.print_error "not found\n"] })
      ∧ loop_cond (read_line script_env (script_start true ["nosuch"])).1 (-1) = true :=
  unknown_command_reported script_env [] 0 (script_start true ["nosuch"]) "nosuch" []
    (by decide) (by decide) (by decide) ⟨'n', by decide, by decide⟩ (by decide) rfl
    (by decide)

/-- C5 (as stated, refuted).  The interpreter is not interactive, no `PATH`
variable exists, the name `nosuch` has no path separator and resolves to
nothing: the error is not suppressed, `check_command` sets the status to 127
and reports "not found". -/
theorem not_found_is_not_suppressed :
    script_env.from_terminal (script_line false "nosuch").pnt
        (script_line false "nosuch").world = 0
      ∧ script_env._getenv (script_line false "nosuch").pnt
        (script_line false "nosuch").world "PATH=" = none
      ∧ (script_line false "nosuch").pnt.argv = ["nosuch"]
      ∧ '/' ∉ "nosuch".toList
      ∧ (observe ((check_command script_env (script_line false "nosuch")).bind
            fun s => .ret (0, s))).map (fun r => (r.2.1.status, r.2.2))
          = some (127,
              [Event.flush_err, Event.get_input 6, Event.check_command,
               Event.check_file_in_path "nosuch", Event.print_error "not found\n"]) := by
  decide

/-- C5 (amended).  When the resolution of a command with at least one
character that is no delimiter misses entirely (`check_file_in_path` finds
no path, and the direct test of `argv[0]` of line 135 does not hold, be it
because `argv[0]` is not executable or because the interpreter is not
interactive, no `PATH` exists and `argv[0]` does not begin with `/`),
`check_command` creates no process, sets the status to 127 and reports
"not found" in every case except one: when the line begins with a newline,
nothing is reported and the status is left as it was. -/
theorem not_found_unless_newline {ω : Type} (E : Env ω) (s : Sh ω) (a : String)
    (rest : List String) (hargv : s.pnt.argv = a :: rest)
    (hcount : ∃ c ∈ s.pnt.arg.toList, E.is_delimiter c " \t\n" = false)
    (hpath : E.check_file_in_path (count_line s.pnt) s.world
      (E._getenv (count_line s.pnt) s.world "PATH=") a = none)
    (hdirect : E.is_executable (count_line s.pnt) s.world a = false
      ∨ (E.from_terminal (count_line s.pnt) s.world = 0
          ∧ E._getenv (count_line s.pnt) s.world "PATH=" = none
          ∧ a.toList.head? ≠ some '/')) :
    (s.pnt.arg.toList.head? ≠ some '\n' →
        check_command E s
          = .ret { pnt := { count_line s.pnt with status := 127 }, world := s.world,
                   trace := s.trace ++ [Event.check_command, Event.check_file_in_path a,
                     Event.print_error "not found\n"] })
      ∧ (s.pnt.arg.toList.head? = some '\n' →
        check_command E s
          = .ret { pnt := count_line s.pnt, world := s.world,
                   trace := s.trace ++ [Event.check_command, Event.check_file_in_path a] }
          ∧ (count_line s.pnt).status = s.pnt.status) := by
  have hd : ¬ direct_test E (count_line s.pnt) s.world a := by
    rcases hdirect with h | ⟨h1, h2, h3⟩
    · simp [direct_test, h]
    · have h3d : a.data.head? ≠ some '/' := h3
      simp [direct_test, h1, h2, starts_with_slash, h3d]
  have hc := check_command_unresolved E s a rest hargv (count_str_ne_zero E _ hcount) hpath hd
  constructor
  · intro hnl
    have h1 : not_newline_first s.pnt.arg = true := by simpa [not_newline_first] using hnl
    rw [hc]; simp [h1, lookup_trace]
  · intro hnl
    have hnd : s.pnt.arg.data.head? = some '\n' := hnl
    have h1 : not_newline_first s.pnt.arg = false := by simp [not_newline_first, hnd]
    rw [hc]; simp [h1, lookup_trace]

theorem not_found_unless_newline_witness :
    ((script_line false "nosuch").pnt.arg.toList.head? ≠ some '\n' →
        check_command script_env (script_line false "nosuch")
          = .ret { pnt := { count_line (script_line false "nosuch").pnt with status := 127 },
                   world := (script_line false "nosuch").world,
                   trace := (script_line false "nosuch").trace
                     ++ [Event.check_command, Event.check_file_in_path "nosuch",
                         Event.print_error "not found\n"] })
      ∧ ((script_line false "nosuch").pnt.arg.toList.head? = some '\n' →
        check_command script_env (script_line false "nosuch")
          = .ret { pnt := count_line (script_line false "nosuch").pnt,
                   world := (script_line false "nosuch").world,
                   trace := (script_line false "nosuch").trace
                     ++ [Event.check_command, Event.check_file_in_path "nosuch"] }
          ∧ (count_line (script_line false "nosuch").pnt).status
              = (script_line false "nosuch").pnt.status) :=
  not_found_unless_newline script_env (script_line false "nosuch") "nosuch" []
    (by decide) ⟨'n', by decide, by decide⟩ rfl (Or.inr ⟨by decide, rfl, by decide⟩)

/-! ## Lines without a word -/

/-- C8 (as stated, refuted).  The previous command left the status 127 and
the line is two spaces: the dispatch creates no process and reports nothing,
but the status it leaves is 127, not 0. -/
theorem blank_line_keeps_failure_status :
    (observe (dispatch script_env
        { pnt := { start_pnt with arg := "  ", argv := ["  "], lc_flag := 1, status := 127 },
          world := (script_start false []).world, trace := [] })).map
          (fun r => (r.1, r.2.1.status, r.2.2))
        = some (-1, 127, [Event.check_command])
      ∧ finish_value (shell_main script_env [] 4 (script_start true ["nosuch", "  "]))
        = some (-1, 127) := by
  decide

/-- C8 (amended).  Whitespace-only input is a no-op: for every line that is
empty or consists only of delimiter characters (and whose `argv[0]`
therefore is no builtin name), the dispatch (`handle_builtin` followed by
`check_command`) creates no process, emits no error (the only event is the
entry of `check_command`) and leaves the last status as the previously
executed command set it. -/
theorem blank_line_is_noop {ω : Type} (E : Env ω) (s : Sh ω) (a : String)
    (rest : List String) (hargv : s.pnt.argv = a :: rest) (hnb : a ∉ builtin_names)
    (hblank : ∀ c ∈ s.pnt.arg.toList, E.is_delimiter c " \t\n" = true) :
    dispatch E s
        = .ret (-1, { pnt := count_line s.pnt, world := s.world,
                      trace := s.trace ++ [Event.check_command] })
      ∧ (count_line s.pnt).status = s.pnt.status := by
  refine ⟨?_, count_line_status _⟩
  rw [dispatch_miss E s a rest hargv hnb]
  unfold check_command
  simp [count_str_eq_zero E _ hblank, Outcome.bind]

theorem blank_line_is_noop_witness :
    dispatch script_env (script_line true "  ")
        = .ret (-1, { pnt := count_line (script_line true "  ").pnt,
                      world := (script_line true "  ").world,
                      trace := (script_line true "  ").trace ++ [Event.check_command] })
      ∧ (count_line (script_line true "  ").pnt).status = (script_line true "  ").pnt.status :=
  blank_line_is_noop script_env (script_line true "  ") "  " [] (by decide) (by decide)
    (by decide)

/-! ## `create_process` -/

theorem create_process_fork_fails {ω : Type} (E : Env ω) (s : Sh ω)
    (hfork : (E.fork s.world).1 = -1) :
    create_process E s
      = .ret { pnt := s.pnt, world := (E.fork s.world).2,
               trace := s.trace ++ [Event.fork (-1), Event.perror "Error:"] } := by
  unfold create_process
  simp [hfork, Sh.log]

/-- C6.  Translation of a failed image replacement: whenever `fork` answers 0
(the child) and `execve` fails there with the error `errno`, `create_process`
ends the process with `exit(126)` if `errno` is `EACCES` and with `exit(1)`
otherwise; it does not return, so whatever code follows the call (the rest
of the read loop) is not run in the child, and the child has done nothing
after `fork` but the `execve`. -/
theorem failed_exec_exits {ω : Type} (E : Env ω) (s : Sh ω) (errno : Int)
    (hfork : (E.fork s.world).1 = 0)
    (hexec : E.execve (E.get_environ s.pnt (E.fork s.world).2).2.1.path
      (E.get_environ s.pnt (E.fork s.world).2).2.1.argv
      (E.get_environ s.pnt (E.fork s.world).2).1
      (E.get_environ s.pnt (E.fork s.world).2).2.2 = some errno) :
    ∃ s2, create_process E s = .exited (if errno = EACCES then 126 else 1) s2
      ∧ s2.trace = s.trace ++ [Event.fork 0,
          Event.execve (E.get_environ s.pnt (E.fork s.world).2).2.1.path
            (E.get_environ s.pnt (E.fork s.world).2).2.1.argv
            (E.get_environ s.pnt (E.fork s.world).2).1]
      ∧ ∀ (β : Type) (k : Sh ω → Outcome (Sh ω) β),
          (create_process E s).bind k = .exited (if errno = EACCES then 126 else 1) s2 := by
  have h : create_process E s
      = .exited (if errno = EACCES then 126 else 1)
          { pnt := (E.free_pnt (E.get_environ s.pnt (E.fork s.world).2).2.1 1
                      (E.get_environ s.pnt (E.fork s.world).2).2.2).1,
            world := (E.free_pnt (E.get_environ s.pnt (E.fork s.world).2).2.1 1
                      (E.get_environ s.pnt (E.fork s.world).2).2.2).2,
            trace := s.trace ++ [Event.fork 0,
              Event.execve (E.get_environ s.pnt (E.fork s.world).2).2.1.path
                (E.get_environ s.pnt (E.fork s.world).2).2.1.argv
                (E.get_environ s.pnt (E.fork s.world).2).1] } := by
    unfold create_process exec_child
    simp only [hfork]
    simp only [hexec]
    by_cases he : errno = EACCES <;> simp [he]
  refine ⟨_, h, by simp, ?_⟩
  intro β k
  rw [h]
  rfl

theorem failed_exec_exits_witness :
    ∃ s2, create_process script_env (script_start_in (prog_world 0 0))
          = .exited (if EACCES = EACCES then 126 else 1) s2
      ∧ s2.trace = (script_start_in (prog_world 0 0)).trace ++ [Event.fork 0,
          Event.execve (script_env.get_environ (script_start_in (prog_world 0 0)).pnt
              (script_env.fork (script_start_in (prog_world 0 0)).world).2).2.1.path
            (script_env.get_environ (script_start_in (prog_world 0 0)).pnt
              (script_env.fork (script_start_in (prog_world 0 0)).world).2).2.1.argv
            (script_env.get_environ (script_start_in (prog_world 0 0)).pnt
              (script_env.fork (script_start_in (prog_world 0 0)).world).2).1]
      ∧ ∀ (β : Type) (k : Sh Script → Outcome (Sh Script) β),
          (create_process script_env (script_start_in (prog_world 0 0))).bind k
            = .exited (if EACCES = EACCES then 126 else 1) s2 :=
  failed_exec_exits script_env (script_start_in (prog_world 0 0)) EACCES rfl rfl

theorem create_process_parent {ω : Type} (E : Env ω) (s : Sh ω)
    (hfork1 : (E.fork s.world).1 ≠ -1) (hfork0 : (E.fork s.world).1 ≠ 0) :
    create_process E s
      = .ret (decode_wait
          { pnt := s.pnt, world := (E.wait (E.fork s.world).2).2,
            trace := s.trace
              ++ [Event.fork (E.fork s.world).1, Event.wait (E.wait (E.fork s.world).2).1] }
          (E.wait (E.fork s.world).2).1) := by
  unfold create_process
  simp [hfork1, hfork0]

/-! ### The wait-status macros, bit by bit -/

theorem ldiff_low_mask (k n : Nat) : Nat.ldiff (2 ^ k - 1) n = 2 ^ k - 1 - n % 2 ^ k := by
  apply Nat.eq_of_testBit_eq
  intro i
  have hlt : n % 2 ^ k < 2 ^ k := Nat.mod_lt _ (Nat.two_pow_pos k)
  have h2 : 2 ^ k - 1 - n % 2 ^ k = 2 ^ k - (n % 2 ^ k + 1) := by omega
  rw [Nat.testBit_ldiff, Nat.testBit_two_pow_sub_one, h2, Nat.testBit_two_pow_sub_succ hlt,
    Nat.testBit_mod_two_pow]
  by_cases hi : i < k <;> simp [hi]

/-- On a two's-complement integer, the bitwise "and" with the mask of the
`k` low bits is the remainder modulo `2 ^ k`. -/
theorem land_low_mask (k : Nat) (w : Int) : Int.land w (2 ^ k - 1 : Nat) = w % 2 ^ k := by
  cases w with
  | ofNat n =>
    show ((n &&& (2 ^ k - 1) : Nat) : Int) = _
    rw [Nat.and_pow_two_sub_one_eq_mod]
    simp
  | negSucc n =>
    show ((Nat.ldiff (2 ^ k - 1) n : Nat) : Int) = _
    rw [ldiff_low_mask]
    have hlt : n % 2 ^ k < 2 ^ k := Nat.mod_lt _ (Nat.two_pow_pos k)
    have hp : (0 : Int) < 2 ^ k := by positivity
    rw [Int.negSucc_eq]
    have hc : ((2 ^ k - 1 - n % 2 ^ k : Nat) : Int) = 2 ^ k - 1 - (n : Int) % 2 ^ k := by
      rw [Nat.cast_sub (by omega), Nat.cast_sub (Nat.two_pow_pos k)]
      simp
    rw [hc]
    have e1 : (n : Int) = 2 ^ k * ((n : Int) / 2 ^ k) + (n : Int) % 2 ^ k :=
      (Int.ediv_add_emod _ _).symm
    have hnn : 0 ≤ (n : Int) % 2 ^ k := Int.emod_nonneg _ (ne_of_gt hp)
    have hl : (n : Int) % 2 ^ k < 2 ^ k := Int.emod_lt_of_pos _ hp
    have e2 : -((n : Int) + 1)
        = (2 ^ k - 1 - (n : Int) % 2 ^ k) + 2 ^ k * (-((n : Int) / 2 ^ k) - 1) := by
      nlinarith
    rw [e2, Int.add_mul_emod_self_left]
    exact (Int.emod_eq_of_lt (by omega) (by omega)).symm

/-- The macro `WTERMSIG(w)` is `w & 0x7f`. -/
theorem WTERMSIG_eq_land (w : Int) : WTERMSIG w = Int.land w 0x7f :=
  (land_low_mask 7 w).symm

/-- The macro `WEXITSTATUS(w)` is `(w >> 8) & 0xff`. -/
theorem WEXITSTATUS_eq_shift_land (w : Int) :
    WEXITSTATUS w = Int.land (Int.shiftRight w 8) 0xff := by
  have h : Int.shiftRight w 8 = w / 256 := by
    have := Int.shiftRight_eq_div_pow w 8
    simpa using this
  rw [h]
  exact (land_low_mask 8 _).symm

theorem WEXITSTATUS_range (w : Int) : 0 ≤ WEXITSTATUS w ∧ WEXITSTATUS w ≤ 255 := by
  unfold WEXITSTATUS
  omega

theorem WIFSIGNALED_not_exited (w : Int) (h : WIFSIGNALED w = true) :
    WIFEXITED w = false ∧ w ≠ 0 := by
  unfold WIFSIGNALED at h
  unfold WIFEXITED
  simp only [Bool.and_eq_true, decide_eq_true_eq] at h
  constructor
  · simp only [beq_eq_false_iff_ne, ne_eq]
    omega
  · rintro rfl
    simp [WTERMSIG] at h

/-- C7.  Wait-status decoding in the parent: for every wait status `w` that
`wait` stores for the child, `create_process` returns, and if `w` encodes a
normal exit (the low seven bits `w & 0x7f` are zero) the status is set to
the exit code `(w >> 8) & 0xff`, that is `w / 256 % 256`, a value in 0..255,
and "Permission denied" is reported exactly when that code is 126; if `w`
encodes termination by a signal (`WIFSIGNALED`) the status recorded is `w`,
which is nonzero, and nothing is reported. -/
theorem wait_status_decoded {ω : Type} (E : Env ω) (s : Sh ω) (w : Int)
    (hfork1 : (E.fork s.world).1 ≠ -1) (hfork0 : (E.fork s.world).1 ≠ 0)
    (hwait : (E.wait (E.fork s.world).2).1 = some w) :
    ∃ s2, create_process E s = .ret s2
      ∧ (Int.land w 0x7f = 0 →
          s2.pnt.status = Int.land (Int.shiftRight w 8) 0xff
            ∧ s2.pnt.status = w / 256 % 256 ∧ 0 ≤ s2.pnt.status ∧ s2.pnt.status ≤ 255
            ∧ s2.trace = s.trace ++ [Event.fork (E.fork s.world).1, Event.wait (some w)]
                ++ (if s2.pnt.status = 126 then [Event.print_error "Permission denied\n"]
                    else []))
      ∧ (WIFSIGNALED w = true →
          s2.pnt.status = w ∧ s2.pnt.status ≠ 0
            ∧ s2.trace = s.trace ++ [Event.fork (E.fork s.world).1, Event.wait (some w)]) := by
  refine ⟨_, create_process_parent E s hfork1 hfork0, ?_, ?_⟩
  · intro hlow
    have hex : WIFEXITED w = true := by
      simp [WIFEXITED, WTERMSIG_eq_land, hlow]
    have hr := WEXITSTATUS_range w
    have hw : WEXITSTATUS w = w / 256 % 256 := rfl
    rw [← WEXITSTATUS_eq_shift_land, ← hw]
    by_cases h126 : WEXITSTATUS w = 126
    · simp [decode_wait, hwait, hex, h126, Sh.log]
    · simp [decode_wait, hwait, hex, h126, Sh.log, hr.1, hr.2]
  · intro hsig
    obtain ⟨hne, h0⟩ := WIFSIGNALED_not_exited w hsig
    simp [decode_wait, hwait, hne, h0]

theorem wait_status_decoded_witness :
    ∃ s2, create_process script_env (script_start_in (prog_world 4242 32256)) = .ret s2
      ∧ (Int.land 32256 0x7f = 0 →
          s2.pnt.status = Int.land (Int.shiftRight 32256 8) 0xff
            ∧ s2.pnt.status = 32256 / 256 % 256 ∧ 0 ≤ s2.pnt.status ∧ s2.pnt.status ≤ 255
            ∧ s2.trace = (script_start_in (prog_world 4242 32256)).trace
                ++ [Event.fork (script_env.fork
                      (script_start_in (prog_world 4242 32256)).world).1,
                    Event.wait (some 32256)]
                ++ (if s2.pnt.status = 126 then [Event.print_error "Permission denied\n"]
                    else []))
      ∧ (WIFSIGNALED 32256 = true →
          s2.pnt.status = 32256 ∧ s2.pnt.status ≠ 0
            ∧ s2.trace = (script_start_in (prog_world 4242 32256)).trace
                ++ [Event.fork (script_env.fork
                      (script_start_in (prog_world 4242 32256)).world).1,
                    Event.wait (some 32256)]) :=
  wait_status_decoded script_env (script_start_in (prog_world 4242 32256)) 32256
    (by decide) (by decide) rfl

/-! ## Failure of `fork` -/

theorem check_command_launch {ω : Type} (E : Env ω) (s : Sh ω) (a : String)
    (rest : List String) (p : pnt_s) (hargv : s.pnt.argv = a :: rest)
    (hcount : count_str E s.pnt.arg ≠ 0) (hl : launch_pnt E s a = some p) :
    check_command E s
      = create_process E { pnt := p, world := s.world, trace := lookup_trace s a } := by
  unfold check_command
  unfold launch_pnt at hl
  simp only [count_line_arg, count_line_argv, hargv, hcount, if_false]
  split at hl
  · rename_i path hp
    simp only [Option.some.injEq] at hl
    simp [hp, ← hl, Sh.log, lookup_trace, hargv]
  · rename_i hp
    split at hl
    · rename_i hdt
      simp only [Option.some.injEq] at hl
      simp [hp, hdt, ← hl, Sh.log, lookup_trace, hargv]
    · simp at hl

/-- C9.  Process-creation failure is recoverable: when a line that was read
resolves to an external program (its first word is no builtin and
`check_command` reaches `create_process` with the context `p`) and `fork`
answers -1, `create_process` reports the error with `perror`, runs no
`execve` and no `wait` (the two events it logs are the `fork` and the
`perror`), leaves the status and every other field of the context as `p`
had them and returns; the pass ends with `read_result` different from -1
and `builtin_return_value` -1, so the loop condition of `shell_main` holds
and the next line is read. -/
theorem fork_failure_recoverable {ω : Type} (E : Env ω) (sv : List String) (brv : Int)
    (s0 : Sh ω) (a : String) (rest : List String) (p : pnt_s)
    (hread : (read_line E s0).1 ≠ -1)
    (hargv : (line_state E sv s0).pnt.argv = a :: rest)
    (hnb : a ∉ builtin_names)
    (hcount : ∃ c ∈ (line_state E sv s0).pnt.arg.toList, E.is_delimiter c " \t\n" = false)
    (hlaunch : launch_pnt E (line_state E sv s0) a = some p)
    (hfork : (E.fork (line_state E sv s0).world).1 = -1) :
    create_process E
        { pnt := p, world := (line_state E sv s0).world,
          trace := lookup_trace (line_state E sv s0) a }
        = .ret { pnt := p, world := (E.fork (line_state E sv s0).world).2,
                 trace := lookup_trace (line_state E sv s0) a
                   ++ [Event.fork (-1), Event.perror "Error:"] }
      ∧ loop_body E sv brv s0
        = .ret ((read_line E s0).1, -1, do_free E 0
            { pnt := p, world := (E.fork (line_state E sv s0).world).2,
              trace := lookup_trace (line_state E sv s0) a
                ++ [Event.fork (-1), Event.perror "Error:"] })
      ∧ p.status = (line_state E sv s0).pnt.status
      ∧ loop_cond (read_line E s0).1 (-1) = true := by
  have hc := create_process_fork_fails E
    { pnt := p, world := (line_state E sv s0).world,
      trace := lookup_trace (line_state E sv s0) a } hfork
  refine ⟨hc, ?_, ?_, ?_⟩
  · rw [loop_body_read E sv brv s0 hread, dispatch_miss E _ a rest hargv hnb,
      check_command_launch E _ a rest p hargv (count_str_ne_zero E _ hcount) hlaunch, hc]
    simp [Outcome.bind]
  · unfold launch_pnt at hlaunch
    split at hlaunch
    · simp only [Option.some.injEq] at hlaunch
      simp [← hlaunch]
    · split at hlaunch
      · simp only [Option.some.injEq] at hlaunch
        simp [← hlaunch]
      · simp at hlaunch
  · simp [loop_cond, hread]

theorem fork_failure_recoverable_witness :
    create_process script_env
        { pnt := count_line (line_state script_env [] (script_start_in (prog_world (-1) 0))).pnt,
          world := (line_state script_env [] (script_start_in (prog_world (-1) 0))).world,
          trace := lookup_trace
            (line_state script_env [] (script_start_in (prog_world (-1) 0))) "prog" }
        = .ret
            { pnt :=
                count_line (line_state script_env [] (script_start_in (prog_world (-1) 0))).pnt,
              world := (script_env.fork
                (line_state script_env [] (script_start_in (prog_world (-1) 0))).world).2,
              trace := lookup_trace
                  (line_state script_env [] (script_start_in (prog_world (-1) 0))) "prog"
                ++ [Event.fork (-1), Event.perror "Error:"] }
      ∧ loop_body script_env [] 0 (script_start_in (prog_world (-1) 0))
        = .ret ((read_line script_env (script_start_in (prog_world (-1) 0))).1, -1,
            do_free script_env 0
            { pnt :=
                count_line (line_state script_env [] (script_start_in (prog_world (-1) 0))).pnt,
              world := (script_env.fork
                (line_state script_env [] (script_start_in (prog_world (-1) 0))).world).2,
              trace := lookup_trace
                  (line_state script_env [] (script_start_in (prog_world (-1) 0))) "prog"
                ++ [Event.fork (-1), Event.perror "Error:"] })
      ∧ (count_line (line_state script_env [] (script_start_in (prog_world (-1) 0))).pnt).status
          = (line_state script_env [] (script_start_in (prog_world (-1) 0))).pnt.status
      ∧ loop_cond (read_line script_env (script_start_in (prog_world (-1) 0))).1 (-1) = true :=
  fork_failure_recoverable script_env [] 0 (script_start_in (prog_world (-1) 0)) "prog" []
    (count_line (line_state script_env [] (script_start_in (prog_world (-1) 0))).pnt)
    (by decide) (by decide) (by decide) ⟨'p', by decide, by decide⟩ (by decide) (by decide)

/-! ## The line counter -/

theorem decode_wait_lines {ω : Type} (s : Sh ω) (w : Option Int) :
    (decode_wait s w).pnt.lines = s.pnt.lines
      ∧ (decode_wait s w).pnt.lc_flag = s.pnt.lc_flag := by
  unfold decode_wait
  simp only
  split
  · split <;> simp [Sh.log]
  · simp

theorem create_process_lines {ω : Type} (E : Env ω) (s : Sh ω)
    (hparent : (E.fork s.world).1 ≠ 0) :
    ∃ s2, create_process E s = .ret s2 ∧ s2.pnt.lines = s.pnt.lines
      ∧ s2.pnt.lc_flag = s.pnt.lc_flag := by
  by_cases hf : (E.fork s.world).1 = -1
  · exact ⟨_, create_process_fork_fails E s hf, rfl, rfl⟩
  · exact ⟨_, create_process_parent E s hf hparent, decode_wait_lines _ _⟩

theorem launch_pnt_some {ω : Type} (E : Env ω) (s : Sh ω) (a : String) (p : pnt_s)
    (h : launch_pnt E s a = some p) :
    p.lines = (count_line s.pnt).lines ∧ p.lc_flag = (count_line s.pnt).lc_flag := by
  unfold launch_pnt at h
  split at h
  · simp only [Option.some.injEq] at h
    simp [← h]
  · split at h
    · simp only [Option.some.injEq] at h
      simp [← h]
    · simp at h

theorem launch_pnt_none {ω : Type} (E : Env ω) (s : Sh ω) (a : String)
    (h : launch_pnt E s a = none) :
    E.check_file_in_path (count_line s.pnt) s.world
        (E._getenv (count_line s.pnt) s.world "PATH=") a = none
      ∧ ¬ direct_test E (count_line s.pnt) s.world a := by
  unfold launch_pnt at h
  split at h
  · simp at h
  · rename_i hp
    split at h
    · simp at h
    · rename_i hd
      exact ⟨hp, hd⟩

theorem check_command_lines {ω : Type} (E : Env ω) (s : Sh ω) (a : String)
    (rest : List String) (hargv : s.pnt.argv = a :: rest)
    (hparent : (E.fork s.world).1 ≠ 0) :
    ∃ s2, check_command E s = .ret s2 ∧ s2.pnt.lines = (count_line s.pnt).lines
      ∧ s2.pnt.lc_flag = (count_line s.pnt).lc_flag := by
  by_cases hcount : count_str E s.pnt.arg = 0
  · refine ⟨{ pnt := count_line s.pnt, world := s.world,
              trace := s.trace ++ [Event.check_command] }, ?_, rfl, rfl⟩
    unfold check_command
    simp [hcount]
  · cases hl : launch_pnt E s a with
    | some p =>
      obtain ⟨s2, h1, h2, h3⟩ := create_process_lines E
        { pnt := p, world := s.world, trace := lookup_trace s a } hparent
      obtain ⟨h4, h5⟩ := launch_pnt_some E s a p hl
      exact ⟨s2, by rw [check_command_launch E s a rest p hargv hcount hl, h1],
        by rw [h2, ← h4], by rw [h3, ← h5]⟩
    | none =>
      obtain ⟨hp, hd⟩ := launch_pnt_none E s a hl
      refine ⟨_, check_command_unresolved E s a rest hargv hcount hp hd, ?_, ?_⟩ <;>
        split <;> rfl

/-- C10 (as stated, refuted).  The command `nosuch`, which is not found, is
dispatched with `lc_flag` 0 and the counter at 5: after `check_command` the
status is 127 and the counter is still 5. -/
theorem uncounted_command_keeps_lines :
    (observe ((check_command script_env
        { pnt := { start_pnt with arg := "nosuch", argv := ["nosuch"], lines := 5,
                                  lc_flag := 0 },
          world := (script_start false []).world, trace := [] }).bind
        fun s => .ret (0, s))).map (fun r => (r.2.1.lines, r.2.1.status))
      = some (5, 127) := by
  decide

/-- C10 (amended).  Line counter: for every context with a first word, in
the interpreter process (not the child that `fork` creates): on a match
`handle_builtin` increments `lines` by exactly one (on the `size_t`, that is
modulo `2 ^ 64`) before the operation starts, whatever `lc_flag` is: the
operation is run on the incremented context; on a miss `check_command`
returns with `lines` incremented by exactly one when `lc_flag` is 1, the
flag being reset to 0, and with `lines` and `lc_flag` as they were for every
other value of `lc_flag`, whether or not the command is found or runs. -/
theorem lines_counted {ω : Type} (E : Env ω) (s : Sh ω) (a : String) (rest : List String)
    (hargv : s.pnt.argv = a :: rest) (hparent : (E.fork s.world).1 ≠ 0) :
    (∀ func, (a, func) ∈ builtints E →
        handle_builtin E s
            = .ret ((func (incr_lines s.pnt) s.world).1,
                { pnt := (func (incr_lines s.pnt) s.world).2.1,
                  world := (func (incr_lines s.pnt) s.world).2.2,
                  trace := s.trace ++ [Event.builtin a] })
          ∧ (incr_lines s.pnt).lines = (s.pnt.lines + 1) % SIZE_WIDTH)
      ∧ (∃ s2, check_command E s = .ret s2
          ∧ s2.pnt.lines
              = (if s.pnt.lc_flag = 1 then (s.pnt.lines + 1) % SIZE_WIDTH else s.pnt.lines)
          ∧ s2.pnt.lc_flag = (if s.pnt.lc_flag = 1 then 0 else s.pnt.lc_flag))
      ∧ (s.pnt.lines + 1 < SIZE_WIDTH → (s.pnt.lines + 1) % SIZE_WIDTH = s.pnt.lines + 1) := by
  refine ⟨?_, ?_, fun h => Nat.mod_eq_of_lt h⟩
  · intro func hf
    refine ⟨?_, rfl⟩
    unfold handle_builtin
    rw [hargv]
    simp [builtin_loop_hit E s a func hf, after_builtin]
  · obtain ⟨s2, h1, h2, h3⟩ := check_command_lines E s a rest hargv hparent
    exact ⟨s2, h1, by rw [h2, count_line_lines], by rw [h3, count_line_lc_flag]⟩

theorem lines_counted_witness :
    (∀ func, ("cd", func) ∈ builtints script_env →
        handle_builtin script_env (script_line true "cd")
            = .ret ((func (incr_lines (script_line true "cd").pnt)
                      (script_line true "cd").world).1,
                { pnt := (func (incr_lines (script_line true "cd").pnt)
                      (script_line true "cd").world).2.1,
                  world := (func (incr_lines (script_line true "cd").pnt)
                      (script_line true "cd").world).2.2,
                  trace := (script_line true "cd").trace ++ [Event.builtin "cd"] })
          ∧ (incr_lines (script_line true "cd").pnt).lines
              = ((script_line true "cd").pnt.lines + 1) % SIZE_WIDTH)
      ∧ (∃ s2, check_command script_env (script_line true "cd") = .ret s2
          ∧ s2.pnt.lines
              = (if (script_line true "cd").pnt.lc_flag = 1 then
                  ((script_line true "cd").pnt.lines + 1) % SIZE_WIDTH
                else (script_line true "cd").pnt.lines)
          ∧ s2.pnt.lc_flag
              = (if (script_line true "cd").pnt.lc_flag = 1 then 0
                else (script_line true "cd").pnt.lc_flag))
      ∧ ((script_line true "cd").pnt.lines + 1 < SIZE_WIDTH →
          ((script_line true "cd").pnt.lines + 1) % SIZE_WIDTH
            = (script_line true "cd").pnt.lines + 1) :=
  lines_counted script_env (script_line true "cd") "cd" [] (by decide) (by decide)

/-! ## The end of `shell_main` -/

theorem shell_loop_stop {ω : Type} (E : Env ω) (sv : List String) (fuel : Nat)
    (rr brv : Int) (s : Sh ω) (h : loop_cond rr brv = false) :
    shell_loop E sv fuel rr brv s = some (.ret (rr, brv, s)) := by
  unfold shell_loop
  simp [h]

theorem shell_loop_pass {ω : Type} (E : Env ω) (sv : List String) (fuel : Nat)
    (rr brv : Int) (s : Sh ω) (r : Int × Int × Sh ω) (h : loop_cond rr brv = true)
    (hb : loop_body E sv brv s = .ret r) :
    shell_loop E sv (fuel + 1) rr brv s = shell_loop E sv fuel r.1 r.2.1 r.2.2 := by
  rw [shell_loop]
  simp [h, hb]

/-- The exit code on a termination request, as the code computes it: in a
non-interactive interpreter with a nonzero status the status, otherwise the
error code unless it is -1. -/
theorem termination_request_finish {ω : Type} (E : Env ω) (sv : List String) (fuel : Nat)
    (rr : Int) (s : Sh ω) :
    shell_main_from E sv fuel rr (-2) s
      = some (.exited
          (if E.from_terminal (final_state E s).pnt (final_state E s).world = 0
              ∧ (final_state E s).pnt.status ≠ 0 then (final_state E s).pnt.status
           else if (final_state E s).pnt.error_code = -1 then (final_state E s).pnt.status
           else (final_state E s).pnt.error_code)
          (final_state E s)) := by
  unfold shell_main_from
  rw [shell_loop_stop E sv fuel rr (-2) s (by simp [loop_cond])]
  simp only [Option.map_some', Outcome.bind, shell_finish]
  by_cases h1 : E.from_terminal (final_state E s).pnt (final_state E s).world = 0
      ∧ (final_state E s).pnt.status ≠ 0
  · rw [if_pos h1, if_pos h1]
  · by_cases h2 : (final_state E s).pnt.error_code = -1 <;> simp [h1, h2]

/-- C2 (the code at the failing input).  A non-interactive interpreter reads
the unknown command `nosuch` and then `exit 42`: the builtin sets the error
code to 42 and asks for termination, and the process exits with 127, the
status of the first line; the same two lines typed at a terminal end the
process with 42. -/
theorem exit_code_lost_in_batch_mode :
    exit_view (shell_main script_env [] 2 (script_start false ["nosuch", "exit 42"]))
        = some (127, 42, 127)
      ∧ exit_view (shell_main script_env [] 2 (script_start true ["nosuch", "exit 42"]))
        = some (42, 42, 127) := by
  decide

/-- C3 (as stated, refuted).  At a terminal the unknown command `nosuch` is
read and then the input ends: `shell_main` returns -1 while the status of
the last command is 127. -/
theorem eof_value_is_not_last_status :
    finish_value (shell_main script_env [] 2 (script_start true ["nosuch"]))
      = some (-1, 127) := by
  decide

/-- C3 (amended).  End of input: when the loop condition holds (so no
termination was requested) and the line source reports end-of-input, the
pass leaves `builtin_return_value` as it was, the loop ends, and
`shell_main` finishes as follows: a non-interactive interpreter whose
`pnt->status` is nonzero exits with `pnt->status`; in every other case
(interactive, or status 0) `shell_main` returns `builtin_return_value`, the
value `handle_builtin` gave for the last line read (-1 when that line was
no builtin, 0 when no line was read). -/
theorem eof_finish {ω : Type} (E : Env ω) (sv : List String) (fuel : Nat) (rr brv : Int)
    (s : Sh ω) (hcond : loop_cond rr brv = true) (heof : (read_line E s).1 = -1) :
    ∃ s1, loop_body E sv brv s = .ret (-1, brv, s1)
      ∧ shell_main_from E sv (fuel + 1) rr brv s
        = some (if E.from_terminal (final_state E s1).pnt (final_state E s1).world = 0
                  ∧ (final_state E s1).pnt.status ≠ 0 then
                .exited (final_state E s1).pnt.status (final_state E s1)
              else .ret (brv, final_state E s1)) := by
  have hbrv : brv ≠ -2 := by
    intro h
    simp [loop_cond, h] at hcond
  have hb : ∃ s1, loop_body E sv brv s = .ret (-1, brv, s1) := by
    unfold loop_body
    simp only [heof]
    by_cases ht : E.from_terminal (read_line E s).2.pnt (read_line E s).2.world ≠ 0
    · exact ⟨do_free E 0 ((read_line E s).2.log (Event.putchar '\n')), by simp [ht]⟩
    · exact ⟨do_free E 0 (read_line E s).2, by simp [ht]⟩
  obtain ⟨s1, h1⟩ := hb
  refine ⟨s1, h1, ?_⟩
  unfold shell_main_from
  rw [shell_loop_pass E sv fuel rr brv s _ hcond h1,
    shell_loop_stop E sv fuel (-1) brv s1 (by simp [loop_cond])]
  simp only [Option.map_some', Outcome.bind, shell_finish, hbrv, if_false]

theorem eof_finish_witness :
    ∃ s1, loop_body script_env [] 0 (script_start false []) = .ret (-1, 0, s1)
      ∧ shell_main_from script_env [] (0 + 1) 0 0 (script_start false [])
        = some (if script_env.from_terminal (final_state script_env s1).pnt
                    (final_state script_env s1).world = 0
                  ∧ (final_state script_env s1).pnt.status ≠ 0 then
                .exited (final_state script_env s1).pnt.status (final_state script_env s1)
              else .ret (0, final_state script_env s1)) :=
  eof_finish script_env [] 0 0 0 (script_start false []) (by decide) (by decide)

end SshShell
